import Mathlib

/-!
Shallow embedding of the priority-queue process scheduler of kernel/proc.c:
the binary heap routines (heapify_up, heapify_down_i, heapify_down,
rearrange_heap), the scheduler policy record with its operations put, get and
change_sched, and the per-process scheduling-field updates performed by
allocproc, sleep and timer_routine.

C `int` values are modelled as `Int`; C integer division (truncation toward
zero) is `Int.tdiv`.  The heap array together with its `heap_size` counter is
modelled as the list of its first `heap_size` live entries, so `heap_size` is
`heap.length`.  Heap slots hold process values; the C code stores pointers,
but every routine modelled here reads and writes disjoint slots, so the value
semantics coincides on duplicate-free heaps.
-/

namespace xv6

/-- Process states, from the `state` field of `struct proc`. -/
inductive ProcState where
  | UNUSED
  | USED
  | SLEEPING
  | RUNNABLE
  | RUNNING
  | ZOMBIE
  deriving DecidableEq, Repr, Inhabited

/-- The scheduling-relevant fields of `struct proc`. -/
structure Proc where
  pid : Int
  state : ProcState
  chan : Int
  killed : Int
  xstate : Int
  cpu_burst : Int
  cpu_burst_aprox : Int
  exe_time : Int
  put_timestamp : Int
  timeslice : Int
  deriving DecidableEq, Repr, Inhabited

/-- The `struct sched_policy` record: heap (as the list of its live entries),
smoothing coefficient `a`, algorithm id and preemption flag. -/
structure SchedPolicy where
  heap : List Proc
  a : Int
  algorithm : Int
  is_preemptive : Int
  deriving DecidableEq, Repr, Inhabited

/-- The boot-time initialiser of `proc_sched` (proc.c line 14):
`{ .heap_size = 0, .a = 50, .algorithm = 0, .is_preemptive = 0 }`. -/
def proc_sched_init : SchedPolicy :=
  { heap := [], a := 50, algorithm := 0, is_preemptive := 0 }

/-- Swap of two heap slots through a temporary, as written in the C code. -/
def swapL (l : List Proc) (i j : Nat) : List Proc :=
  (l.set i (l.getD j default)).set j (l.getD i default)

/-- Loop of heapify_up (proc.c lines 702-714).  Each iteration either breaks
or continues at `curr := parent`, which strictly decreases, so `fuel`
iterations with `fuel = n` always reach the break. -/
def heapify_up_loop (algo : Int) (arr : List Proc) (curr parent : Nat) : Nat → List Proc
  | 0 => arr
  | fuel + 1 =>
    if (algo = 0 ∧ (arr.getD curr default).cpu_burst_aprox < (arr.getD parent default).cpu_burst_aprox) ∨
        (algo ≠ 0 ∧ (arr.getD curr default).exe_time < (arr.getD parent default).exe_time) then
      let arr1 := swapL arr curr parent
      if parent = 0 then arr1
      else heapify_up_loop algo arr1 parent ((parent - 1) / 2) fuel
    else arr

/-- heapify_up (proc.c lines 696-715).  Note the initial parent index is
`curr / 2` with `curr = n - 1`, exactly as in the source. -/
def heapify_up (arr : List Proc) (n : Nat) (algo : Int) : List Proc :=
  if n = 1 then arr
  else heapify_up_loop algo arr (n - 1) ((n - 1) / 2) n

/-- Loop of heapify_down_i (proc.c lines 729-750).  The right-child branch
compares `cpu_burst_aprox` in both disjuncts, exactly as in the source.
`curr` strictly increases below `n`, so `fuel = n` iterations suffice. -/
def heapify_down_loop (algo : Int) (arr : List Proc) (n curr : Nat) : Nat → List Proc
  | 0 => arr
  | fuel + 1 =>
    let left_child := curr * 2 + 1
    let right_child := curr * 2 + 2
    if (algo = 0 ∧ left_child < n ∧ (arr.getD curr default).cpu_burst_aprox > (arr.getD left_child default).cpu_burst_aprox) ∨
        (algo ≠ 0 ∧ left_child < n ∧ (arr.getD curr default).exe_time > (arr.getD left_child default).exe_time) then
      heapify_down_loop algo (swapL arr curr left_child) n left_child fuel
    else if (algo = 0 ∧ right_child < n ∧ (arr.getD curr default).cpu_burst_aprox > (arr.getD right_child default).cpu_burst_aprox) ∨
        (algo ≠ 0 ∧ right_child < n ∧ (arr.getD curr default).cpu_burst_aprox > (arr.getD right_child default).cpu_burst_aprox) then
      heapify_down_loop algo (swapL arr curr right_child) n right_child fuel
    else arr

/-- heapify_down_i (proc.c lines 722-751). -/
def heapify_down_i (arr : List Proc) (n i : Nat) (algo : Int) : List Proc :=
  if n = 1 then arr else heapify_down_loop algo arr n i n

/-- heapify_down (proc.c lines 717-720): sink from the root. -/
def heapify_down (arr : List Proc) (n : Nat) (algo : Int) : List Proc :=
  heapify_down_i arr n 0 algo

/-- rearrange_heap (proc.c lines 813-819): heapify_down_i for `i` from
`n / 2 - 1` down to `0` (no iterations when `n / 2 = 0`, matching the C
loop whose initial index is then negative). -/
def rearrange_heap (arr : List Proc) (n : Nat) (algo : Int) : List Proc :=
  (List.range (n / 2)).reverse.foldl (fun acc i => heapify_down_i acc n i algo) arr

/-- put (proc.c lines 753-786), its critical section on the scheduler state.
The smoothing test in the source reads `proc->state` - the state of the HEAD
of the process table `proc[0]` - not `p->state`; it is passed here as
`proc0_state`.  `ticks` is the global tick counter.  Returns the updated
policy record and the updated process value (the value appended to the
heap). -/
def put (sched : SchedPolicy) (proc0_state : ProcState) (ticks : Int) (p : Proc) : SchedPolicy × Proc :=
  let p1 := if proc0_state ≠ ProcState.RUNNING then
      { p with cpu_burst_aprox :=
          Int.tdiv (sched.a * p.cpu_burst + (100 - sched.a) * p.cpu_burst_aprox) 100 }
    else p
  let p2 := if p1.state = ProcState.RUNNING then
      { p1 with exe_time := p1.exe_time + p1.cpu_burst }
    else { p1 with exe_time := 0 }
  let p3 := { p2 with put_timestamp := ticks, state := ProcState.RUNNABLE }
  let heap1 := sched.heap ++ [p3]
  ({ sched with heap := heapify_up heap1 heap1.length sched.algorithm }, p3)

/-- get (proc.c lines 788-809).  Returns the dequeued process (none when the
heap is empty) and the updated policy state.  The CFS timeslice divides by
`heap_size + 1` AFTER the decrement, i.e. by `(hs - 1) + 1`. -/
def get (sched : SchedPolicy) (ticks : Int) : Option Proc × SchedPolicy :=
  if sched.heap.length = 0 then (none, sched)
  else
    let hs := sched.heap.length
    let ret := { sched.heap.getD 0 default with cpu_burst := 0 }
    let heap1 := (sched.heap.set 0 (sched.heap.getD (hs - 1) default)).take (hs - 1)
    let heap2 := heapify_down heap1 (hs - 1) sched.algorithm
    let ret2 := if sched.algorithm = 1 then
        let cfs_timeslice := Int.tdiv (ticks - ret.put_timestamp) (((hs - 1 : Nat) : Int) + 1)
        let cfs_timeslice := if cfs_timeslice = 0 then cfs_timeslice + 1 else cfs_timeslice
        { ret with timeslice := cfs_timeslice }
      else ret
    (some ret2, { sched with heap := heap2 })

/-- change_sched (proc.c lines 836-849): validate, then overwrite the policy
fields and re-heapify under the new key.  Returns the status code and the new
policy state. -/
def change_sched (sched : SchedPolicy) (algo is_preemptive a : Int) : Int × SchedPolicy :=
  if algo < 0 ∨ algo > 1 ∨ is_preemptive < 0 then (-2, sched)
  else if algo = 0 ∧ (a < 0 ∨ a > 100) then (-3, sched)
  else
    let s1 : SchedPolicy := { sched with algorithm := algo, is_preemptive := is_preemptive, a := a }
    (0, { s1 with heap := rearrange_heap s1.heap s1.heap.length algo })

/-- The scheduling-field initialisation performed by allocproc (proc.c lines
123-129) on a freshly found UNUSED slot. -/
def allocproc_fields (p : Proc) (newpid : Int) : Proc :=
  { p with pid := newpid, state := ProcState.USED, cpu_burst_aprox := 0,
           cpu_burst := 0, timeslice := 0, put_timestamp := 0, exe_time := 0 }

/-- The field updates performed on the sleeping process by sleep (proc.c
lines 578-579) before switching out: set the channel and move to SLEEPING. -/
def sleep_fields (p : Proc) (chan : Int) : Proc :=
  { p with chan := chan, state := ProcState.SLEEPING }

/-- The field updates performed on the exiting process by exit (proc.c
lines 388-389) before switching out: record the exit status and move to
ZOMBIE. -/
def exit_fields (p : Proc) (status : Int) : Proc :=
  { p with xstate := status, state := ProcState.ZOMBIE }

/-- timer_routine (proc.c lines 854-863): increment `cpu_burst`, then yield
when the slice is exhausted or under preemptive SJF.  Returns the updated
process and whether yield() is called. -/
def timer_routine (s : SchedPolicy) (p : Proc) : Proc × Bool :=
  let p1 := { p with cpu_burst := p.cpu_burst + 1 }
  (p1, decide ((p1.timeslice ≠ 0 ∧ p1.cpu_burst = p1.timeslice) ∨
      (s.algorithm = 0 ∧ s.is_preemptive = 1)))

/-- The key function the spec selects: `cpu_burst_aprox` under SJF
(algorithm 0), `exe_time` under CFS (algorithm 1). -/
def keyOf (algo : Int) (p : Proc) : Int :=
  if algo = 0 then p.cpu_burst_aprox else p.exe_time

/-- Min-heap property under the key selected by `algo`: every non-root entry
is at least its parent, the parent of slot `i` being `(i - 1) / 2`. -/
def IsMinHeap (algo : Int) (arr : List Proc) : Prop :=
  ∀ i, i < arr.length → 0 < i →
    keyOf algo (arr.getD ((i - 1) / 2) default) ≤ keyOf algo (arr.getD i default)

instance (algo : Int) (arr : List Proc) : Decidable (IsMinHeap algo arr) := by
  unfold IsMinHeap
  exact Nat.decidableBallLT _ _

/-- The policy-field constraints: `0 ≤ a ≤ 100`, `algorithm ∈ \x7b0,1\x7d`,
`is_preemptive ∈ \x7b0,1\x7d`. -/
def PolicyOk (s : SchedPolicy) : Prop :=
  0 ≤ s.a ∧ s.a ≤ 100 ∧ (s.algorithm = 0 ∨ s.algorithm = 1) ∧
    (s.is_preemptive = 0 ∨ s.is_preemptive = 1)

instance (s : SchedPolicy) : Decidable (PolicyOk s) := by
  unfold PolicyOk
  infer_instance

/-- A fixed process value used by the concrete scenarios below: RUNNABLE,
with the given smoothed estimate and execution time, all other fields zero. -/
def mkP (aprox exe : Int) : Proc :=
  { pid := 0, state := ProcState.RUNNABLE, chan := 0, killed := 0, xstate := 0,
    cpu_burst := 0, cpu_burst_aprox := aprox, exe_time := exe,
    put_timestamp := 0, timeslice := 0 }

/-- Process used in the C2 scenario: SLEEPING, last burst 10, estimate 0. -/
def c2proc : Proc :=
  { mkP 0 7 with state := ProcState.SLEEPING, cpu_burst := 10 }

/-- Policy state used in the C3 scenario: a four-entry heap, valid under the
SJF key (cpu_burst_aprox values 0, 10, 5, 11). -/
def c3sched : SchedPolicy :=
  { heap := [mkP 0 0, mkP 10 0, mkP 5 0, mkP 11 0], a := 50, algorithm := 0, is_preemptive := 0 }

/-- Policy state used in the C5 scenario: heap entries with cpu_burst_aprox
values 5, 3, 1 under the CFS algorithm, about to be switched to SJF. -/
def c5sched : SchedPolicy :=
  { heap := [mkP 5 0, mkP 3 0, mkP 1 0], a := 50, algorithm := 1, is_preemptive := 0 }

/-- Policy state used in the C7 scenario: CFS with three queued processes,
the root enqueued at tick 10. -/
def c7sched : SchedPolicy :=
  { heap := [{ mkP 0 1 with put_timestamp := 10 }, mkP 0 2, mkP 0 3],
    a := 50, algorithm := 1, is_preemptive := 0 }

/-- Policy state used in the C8 scenario: SJF with one queued process whose
timeslice is a stale 3 from an earlier CFS dequeue. -/
def c8sched : SchedPolicy :=
  { heap := [{ mkP 2 0 with timeslice := 3 }], a := 50, algorithm := 0, is_preemptive := 0 }

/-- Process used in the C9 scenario: RUNNING with accumulated exe_time 5. -/
def c9proc : Proc :=
  { mkP 0 5 with state := ProcState.RUNNING }

/-- Claim C1: heapify_down_from is required to compare the element against
its right child under the key selected by the algorithm, hence on exe_time
when algorithm = 1.  The source compares cpu_burst_aprox in the right-child
branch of the CFS path: on a three-entry heap with exe_time values 5, 9, 1
(all cpu_burst_aprox 0), heapify_down_i(0, 3) under algorithm 1 makes no
swap, leaving the root's exe_time above its right child's, so the result is
not a min-heap under exe_time. -/
theorem heapify_down_right_child_ignores_exe_time :
    heapify_down_i [mkP 0 5, mkP 0 9, mkP 0 1] 3 0 1 = [mkP 0 5, mkP 0 9, mkP 0 1] ∧
    keyOf 1 ((heapify_down_i [mkP 0 5, mkP 0 9, mkP 0 1] 3 0 1).getD 2 default) <
      keyOf 1 ((heapify_down_i [mkP 0 5, mkP 0 9, mkP 0 1] 3 0 1).getD 0 default) ∧
    ¬ IsMinHeap 1 (heapify_down_i [mkP 0 5, mkP 0 9, mkP 0 1] 3 0 1) := by
  decide

/-- Claim C2: put is required to apply the smoothing update whenever the
enqueued process p is not RUNNING, independent of other processes.  The
source gates the update on the state of the process-table head instead:
with a = 50, p SLEEPING, p.cpu_burst = 10, p.cpu_burst_aprox = 0, and the
table head RUNNING, put leaves cpu_burst_aprox at 0 although the smoothing
formula yields 5. -/
theorem put_smoothing_gated_by_table_head :
    c2proc.state ≠ ProcState.RUNNING ∧
    (put proc_sched_init ProcState.RUNNING 100 c2proc).2.cpu_burst_aprox = 0 ∧
    Int.tdiv (proc_sched_init.a * c2proc.cpu_burst +
        (100 - proc_sched_init.a) * c2proc.cpu_burst_aprox) 100 = 5 ∧
    (put proc_sched_init ProcState.RUNNING 100 c2proc).2.cpu_burst_aprox ≠
      Int.tdiv (proc_sched_init.a * c2proc.cpu_burst +
        (100 - proc_sched_init.a) * c2proc.cpu_burst_aprox) 100 := by
  decide

/-- Claim C3: appending to a valid heap and running heapify_up is required
to yield a min-heap for every size.  The source's initial parent index is
curr / 2 instead of (curr - 1) / 2: appending key 1 to the four-entry heap
with cpu_burst_aprox keys 0, 10, 5, 11 under SJF via put (which appends and
runs heapify_up(5)) produces keys 0, 10, 1, 11, 5, violating the heap
property at index 4, whose parent at index 1 has key 10 > 5. -/
theorem heapify_up_initial_parent_breaks_heap :
    IsMinHeap 0 c3sched.heap ∧
    (put c3sched ProcState.RUNNING 0 (mkP 1 0)).1.heap =
      heapify_up (c3sched.heap ++ [mkP 1 0]) 5 0 ∧
    (put c3sched ProcState.RUNNING 0 (mkP 1 0)).1.heap =
      [mkP 0 0, mkP 10 0, mkP 1 0, mkP 11 0, mkP 5 0] ∧
    ¬ IsMinHeap 0 (put c3sched ProcState.RUNNING 0 (mkP 1 0)).1.heap := by
  decide

/-- Claim C4: change_sched returns -2 when the algorithm id is outside
\x7b0,1\x7d or is_preemptive is negative, otherwise -3 when the algorithm is 0
and a is outside [0,100], otherwise 0; in particular on the three quoted
argument triples (2,0,50), (0,0,101) and (0,-1,50). -/
theorem change_sched_return_codes (s : SchedPolicy) (algo pre a : Int) :
    (¬ (algo = 0 ∨ algo = 1) ∨ pre < 0 → (change_sched s algo pre a).1 = -2) ∧
    ((algo = 0 ∨ algo = 1) → 0 ≤ pre → algo = 0 → (a < 0 ∨ 100 < a) →
      (change_sched s algo pre a).1 = -3) ∧
    ((algo = 0 ∨ algo = 1) → 0 ≤ pre → (algo = 0 → 0 ≤ a ∧ a ≤ 100) →
      (change_sched s algo pre a).1 = 0) ∧
    (change_sched s 2 0 50).1 = -2 ∧
    (change_sched s 0 0 101).1 = -3 ∧
    (change_sched s 0 (-1) 50).1 = -2 := by
  unfold change_sched
  refine ⟨?_, ?_, ?_, by norm_num, by norm_num, by norm_num⟩
  · intro h
    split_ifs with h1 h2 <;> first | rfl | omega
  · intro h hpre h0 ha
    split_ifs with h1 h2 <;> first | rfl | omega
  · intro h hpre ha
    split_ifs with h1 h2 <;> first | rfl | omega

theorem change_sched_return_codes_witness :
    (change_sched proc_sched_init 2 0 50).1 = -2 ∧
    (change_sched proc_sched_init 0 0 101).1 = -3 ∧
    (change_sched proc_sched_init 1 5 500).1 = 0 :=
  ⟨(change_sched_return_codes proc_sched_init 2 0 50).1 (by omega),
   (change_sched_return_codes proc_sched_init 0 0 101).2.1 (by omega) (by omega) rfl (by omega),
   (change_sched_return_codes proc_sched_init 1 5 500).2.2.1 (by omega) (by omega) (by omega)⟩

/-- Claim C5: a successful change_sched is required to leave the heap a
min-heap under the new key.  The source's heapify_down_i swaps with the left
child even when the right child is the smaller violating one: switching the
heap with cpu_burst_aprox keys 5, 3, 1 to SJF via change_sched(0, 0, 50)
returns 0 but leaves keys 3, 5, 1, violating the heap property at the
root's right child. -/
theorem change_sched_leaves_non_heap :
    (change_sched c5sched 0 0 50).1 = 0 ∧
    (change_sched c5sched 0 0 50).2.heap = [mkP 3 0, mkP 5 0, mkP 1 0] ∧
    ¬ IsMinHeap 0 (change_sched c5sched 0 0 50).2.heap := by
  decide

/-- Claim C6 counterexample: change_sched(1, 0, 500) is accepted (returns 0)
because a is validated only when the algorithm argument is 0, and it stores
a = 500, breaking 0 ≤ a ≤ 100; so the policy-field constraints are not
preserved by every accepted change_sched call. -/
theorem change_sched_accepts_out_of_range_a :
    PolicyOk proc_sched_init ∧
    (change_sched proc_sched_init 1 0 500).1 = 0 ∧
    (change_sched proc_sched_init 1 0 500).2.a = 500 ∧
    ¬ PolicyOk (change_sched proc_sched_init 1 0 500).2 := by
  decide

/-- Claim C6 (amended): the policy-field constraints hold at boot, put and
get never write the policy fields, and a change_sched call that returns 0
preserves the constraints provided its own is_preemptive argument is 0 or 1
and its a argument lies in [0,100]. -/
theorem policy_fields_boot_and_bounded_preservation :
    PolicyOk proc_sched_init ∧
    (∀ s p0s t p, (put s p0s t p).1.a = s.a ∧
      (put s p0s t p).1.algorithm = s.algorithm ∧
      (put s p0s t p).1.is_preemptive = s.is_preemptive) ∧
    (∀ s t, (get s t).2.a = s.a ∧ (get s t).2.algorithm = s.algorithm ∧
      (get s t).2.is_preemptive = s.is_preemptive) ∧
    (∀ s algo pre a, (change_sched s algo pre a).1 = 0 →
      (pre = 0 ∨ pre = 1) → 0 ≤ a → a ≤ 100 →
      PolicyOk (change_sched s algo pre a).2) := by
  refine ⟨by decide, ?_, ?_, ?_⟩
  · intro s p0s t p
    exact ⟨rfl, rfl, rfl⟩
  · intro s t
    unfold get
    split <;> exact ⟨rfl, rfl, rfl⟩
  · intro s algo pre a h hpre ha0 ha1
    unfold change_sched at h ⊢
    split_ifs at h ⊢ with h1 h2
    · exact absurd h (by norm_num)
    · exact absurd h (by norm_num)
    · simp only [PolicyOk]
      omega

theorem policy_fields_boot_and_bounded_preservation_witness :
    PolicyOk (change_sched proc_sched_init 1 1 80).2 :=
  policy_fields_boot_and_bounded_preservation.2.2.2 proc_sched_init 1 1 80
    (by decide) (by decide) (by decide) (by decide)

/-- Claim C7: when the heap is nonempty and the algorithm is CFS, get
dequeues the root and sets its timeslice to
max(1, (ticks - put_timestamp) / (heap_size + 1)), with heap_size counted
after the removal, whenever ticks is at least the enqueue timestamp. -/
theorem get_cfs_timeslice_formula (s : SchedPolicy) (t : Int)
    (halg : s.algorithm = 1) (hne : s.heap.length ≠ 0)
    (hts : (s.heap.getD 0 default).put_timestamp ≤ t) :
    ∃ r, (get s t).1 = some r ∧
      r.timeslice = max 1 ((t - (s.heap.getD 0 default).put_timestamp) /
        (((s.heap.length - 1 : Nat) : Int) + 1)) := by
  simp only [get, hne, halg, if_false, if_true, reduceIte]
  refine ⟨_, rfl, ?_⟩
  have hx : (0 : Int) ≤ t - (s.heap.getD 0 default).put_timestamp := by omega
  have hd : (0 : Int) ≤ ((s.heap.length - 1 : Nat) : Int) + 1 := by positivity
  rw [Int.tdiv_eq_ediv hx hd]
  set q : Int := (t - (s.heap.getD 0 default).put_timestamp) /
      (((s.heap.length - 1 : Nat) : Int) + 1) with hq
  have hq0 : 0 ≤ q := Int.ediv_nonneg hx hd
  rcases eq_or_ne q 0 with h | h
  · rw [if_pos h, h, max_eq_left (show (0 : Int) ≤ 1 by norm_num)]
    norm_num
  · rw [if_neg h, max_eq_right (show (1 : Int) ≤ q by omega)]

theorem get_cfs_timeslice_formula_witness :
    ∃ r, (get c7sched 22).1 = some r ∧
      r.timeslice = max 1 ((22 - (c7sched.heap.getD 0 default).put_timestamp) /
        (((c7sched.heap.length - 1 : Nat) : Int) + 1)) :=
  get_cfs_timeslice_formula c7sched 22 (by decide) (by decide) (by decide)

/-- Claim C8 counterexample: under SJF, get does not write timeslice at all;
a queued process carrying a stale timeslice of 3 from an earlier CFS dequeue
is returned with timeslice 3, not 0. -/
theorem get_sjf_stale_timeslice :
    c8sched.algorithm = 0 ∧
    ((get c8sched 100).1.map Proc.timeslice) = some 3 ∧
    ((get c8sched 100).1.map Proc.timeslice) ≠ some 0 := by
  decide

/-- Claim C8 (amended): under SJF, get leaves the dequeued process's
timeslice unchanged from its value at the heap root, so it is 0 - and
slice-based preemption is inapplicable - exactly when it was already 0 at
dequeue time. -/
theorem get_sjf_timeslice_unchanged (s : SchedPolicy) (t : Int)
    (halg : s.algorithm = 0) (hne : s.heap.length ≠ 0) :
    ∃ r, (get s t).1 = some r ∧
      r.timeslice = (s.heap.getD 0 default).timeslice := by
  simp only [get, hne, halg, if_false, reduceIte]
  exact ⟨_, rfl, rfl⟩

theorem get_sjf_timeslice_unchanged_witness :
    ∃ r, (get c8sched 100).1 = some r ∧
      r.timeslice = (c8sched.heap.getD 0 default).timeslice :=
  get_sjf_timeslice_unchanged c8sched 100 (by decide) (by decide)

/-- Claim C9 counterexample: sleep moves a RUNNING process with accumulated
exe_time 5 to SLEEPING without resetting exe_time, and exit moves it to
ZOMBIE without resetting exe_time either, so exe_time is not zero whenever a
process is SLEEPING or ZOMBIE. -/
theorem sleeping_or_zombie_with_nonzero_exe_time :
    (sleep_fields c9proc 7).state = ProcState.SLEEPING ∧
    (sleep_fields c9proc 7).exe_time = 5 ∧
    (sleep_fields c9proc 7).exe_time ≠ 0 ∧
    (exit_fields c9proc 0).state = ProcState.ZOMBIE ∧
    (exit_fields c9proc 0).exe_time = 5 ∧
    (exit_fields c9proc 0).exe_time ≠ 0 := by
  decide

/-- Claim C9 (amended): exe_time is zeroed by allocproc's field
initialisation and by put whenever the enqueued process is not RUNNING (in
particular at the first enqueue after a wakeup), while entering SLEEPING via
sleep and entering ZOMBIE via exit both leave exe_time unchanged. -/
theorem exe_time_reset_points :
    (∀ p newpid, (allocproc_fields p newpid).exe_time = 0) ∧
    (∀ s p0s t p, p.state ≠ ProcState.RUNNING →
      (put s p0s t p).2.exe_time = 0) ∧
    (∀ p c, (sleep_fields p c).exe_time = p.exe_time) ∧
    (∀ p st, (exit_fields p st).exe_time = p.exe_time) := by
  refine ⟨fun p newpid => rfl, ?_, fun p c => rfl, fun p st => rfl⟩
  intro s p0s t p h
  by_cases hc : p0s = ProcState.RUNNING
  · simp [put, hc, h]
  · simp [put, hc, h]

theorem exe_time_reset_points_witness :
    (put proc_sched_init ProcState.RUNNING 100 (sleep_fields c9proc 3)).2.exe_time = 0 :=
  exe_time_reset_points.2.1 proc_sched_init ProcState.RUNNING 100 (sleep_fields c9proc 3) (by decide)

/-- Claim C10: when change_sched rejects its arguments (returns -2 or -3),
the whole scheduler policy state - heap, algorithm, is_preemptive and a -
is returned unchanged. -/
theorem change_sched_error_preserves_state (s : SchedPolicy) (algo pre a : Int)
    (h : (change_sched s algo pre a).1 = -2 ∨ (change_sched s algo pre a).1 = -3) :
    (change_sched s algo pre a).2 = s := by
  unfold change_sched at h ⊢
  split_ifs at h ⊢ with h1 h2
  · rfl
  · rfl
  · rcases h with h | h <;> exact absurd h (by norm_num)

theorem change_sched_error_preserves_state_witness :
    (change_sched proc_sched_init 2 0 50).2 = proc_sched_init :=
  change_sched_error_preserves_state proc_sched_init 2 0 50 (Or.inl (by decide))

end xv6
